import Mathlib

/-!
Shallow embedding of the Profit Reconciliation & Aggregation Engine of
`src/app.py` (controle_financeiro_qota_store).

Numeric amounts are modelled as `ℚ` (the Python code computes with floats;
the formulas are translated exactly, without rounding).  Data frames become
lists of records; the pandas dictionaries built by `set_index(...).to_dict`
become lookup functions over those lists with last-write-wins semantics.
-/

namespace Qota

/-- A row of the `produtos` table, as selected at src/app.py:1401-1407.
Fields keep the source column names.  `data_add` is the creation date as an
ISO `YYYY-MM-DD` string. -/
structure Product where
  id : Int
  data_add : String
  nome : String
  sku : String
  upc : String
  asin : String
  custo_base : ℚ
  freight : ℚ
  tax : ℚ
  quantidade : ℚ
  prep : ℚ
  sold_for : ℚ
  amazon_fees : ℚ
deriving Repr, DecidableEq

/-- A row of the `amazon_receitas` table, as selected at src/app.py:1433-1437.
`produto_id` is nullable (coerced with `pd.to_numeric(..., errors="coerce")`
at src/app.py:1454); the identifier snapshots `sku`/`upc`/`asin`/`produto`
may be absent. -/
structure Receipt where
  id : Int
  data : String
  produto_id : Option Int
  quantidade : Int
  valor_usd : ℚ
  sku : Option String
  upc : Option String
  asin : Option String
  produto : Option String
deriving Repr, DecidableEq

/-! ## Cost Allocation Calculator (src/app.py:558-573)

The Python functions read row fields with `float(row.get(k, 0) or 0)`;
in the embedding every field is already a total `ℚ`, so the None-to-0
coercion is the identity. -/

/-- src/app.py:558-561: `price_to_buy_eff`.
`rateio = (tax + freight) / qty if qty > 0 else 0.0; return base + rateio`. -/
def price_to_buy_eff (row : Product) : ℚ :=
  let rateio := if row.quantidade > 0 then (row.tax + row.freight) / row.quantidade else 0
  row.custo_base + rateio

/-- src/app.py:563-566: `gross_profit_unit`. -/
def gross_profit_unit (row : Product) : ℚ :=
  row.sold_for - row.amazon_fees - row.prep - price_to_buy_eff row

/-- src/app.py:568-569: `gross_roi`. -/
def gross_roi (row : Product) : ℚ :=
  if price_to_buy_eff row > 0 then gross_profit_unit row / price_to_buy_eff row else 0

/-- src/app.py:571-573: `margin_pct`. -/
def margin_pct (row : Product) : ℚ :=
  if row.sold_for > 0 then gross_profit_unit row / row.sold_for else 0

/-! ## Identifier normalization (src/app.py:575-577) -/

/-- The character class of the regex `[\s\-._]+` removed by `_norm`:
whitespace, hyphen, dot, underscore. -/
def isStripChar (c : Char) : Bool :=
  c.isWhitespace || c == '-' || c == '.' || c == '_'

/-- Python `str.strip()` on a character list: drop whitespace from both ends. -/
def pyStrip (l : List Char) : List Char :=
  (((l.dropWhile Char.isWhitespace).reverse).dropWhile Char.isWhitespace).reverse

/-- src/app.py:575-577: `_norm` — strip surrounding whitespace, lower-case,
then delete every occurrence of the class `[\s\-._]` (the regex substitution
with the empty string).  `None` becomes `""` via `normOpt` below. -/
def _norm (x : String) : String :=
  ⟨((pyStrip x.data).map Char.toLower).filter (fun c => !(isStripChar c))⟩

/-- `_norm` applied to a nullable field: `if x is None: return ""`. -/
def normOpt (x : Option String) : String :=
  match x with
  | none => ""
  | some s => _norm s

/-! ## Product index dictionaries (src/app.py:1441-1447, `_maps_from_products`)

`df.set_index(col).to_dict("index")` keyed by a normalized identifier is a
dictionary in which a later row overwrites an earlier one with the same key;
a lookup therefore returns the LAST matching row.  The comprehension keeps
only rows whose raw identifier is non-empty and not pure whitespace
(`if s and str(s).strip()`).  When several distinct raw identifiers share one
normalized key the winner is unspecified by the spec (§9, data-entry
duplicate); the embedding takes the last matching row. -/

/-- `by_id.get(pid)`: lookup in `df_products.set_index("id").to_dict("index")`. -/
def lookupById (ps : List Product) (pid : Int) : Option Product :=
  (ps.filter (fun p => p.id == pid)).getLast?

/-- Lookup in a normalized-identifier dictionary built from field `f`:
rows with a blank raw identifier are never inserted (src/app.py:1443-1446,
`if s and str(s).strip()` — the raw identifier must keep a character after
stripping surrounding whitespace, here expressed with `pyStrip` on the
character list). -/
def lookupByKey (f : Product → String) (ps : List Product) (k : String) : Option Product :=
  (ps.filter (fun p => pyStrip (f p).data ≠ [] && _norm (f p) == k)).getLast?

/-! ## Product Matcher (src/app.py:579-595) -/

/-- Step 1 of the cascade (src/app.py:580-586): if `produto_id` is non-null,
look it up in `by_id`; on a hit return it, otherwise fall through. -/
def stepId (ps : List Product) (r : Receipt) : Option Product :=
  match r.produto_id with
  | none => none
  | some pid => lookupById ps pid

/-- Steps 2-5 (src/app.py:587-594): normalize the receipt's identifier;
an empty normalized key is never looked up (`if sku and sku in by_sku`). -/
def stepKey (f : Product → String) (g : Receipt → Option String)
    (ps : List Product) (r : Receipt) : Option Product :=
  let k := normOpt (g r)
  if k = "" then none else lookupByKey f ps k

def stepSku (ps : List Product) (r : Receipt) : Option Product :=
  stepKey Product.sku Receipt.sku ps r

def stepUpc (ps : List Product) (r : Receipt) : Option Product :=
  stepKey Product.upc Receipt.upc ps r

def stepAsin (ps : List Product) (r : Receipt) : Option Product :=
  stepKey Product.asin Receipt.asin ps r

def stepName (ps : List Product) (r : Receipt) : Option Product :=
  stepKey Product.nome Receipt.produto ps r

/-- src/app.py:579-595: `_match_prod_for_receipt` — the five early returns of
the Python function become a nested fall-through over the five steps. -/
def _match_prod_for_receipt (ps : List Product) (r : Receipt) : Option Product :=
  match stepId ps r with
  | some prod => some prod
  | none =>
    match stepSku ps r with
    | some prod => some prod
    | none =>
      match stepUpc ps r with
      | some prod => some prod
      | none =>
        match stepAsin ps r with
        | some prod => some prod
        | none =>
          match stepName ps r with
          | some prod => some prod
          | none => none

/-! ## Profit Aggregator (src/app.py:1449-1466) -/

/-- The contribution of one receipt row inside the loop of `_sum_profit`
(src/app.py:1456-1465): unmatched rows `continue` (contribute 0), matched
rows add `gross_profit_unit(prod) * quantidade`. -/
def contrib (ps : List Product) (r : Receipt) : ℚ :=
  match _match_prod_for_receipt ps r with
  | none => 0
  | some prod => gross_profit_unit prod * (r.quantidade : ℚ)

/-- src/app.py:1449-1466: `_sum_profit` — returns 0 on an empty receipts or
products frame, otherwise folds the per-row contributions into `total`. -/
def _sum_profit (receipts : List Receipt) (prods : List Product) : ℚ :=
  if receipts = [] ∨ prods = [] then 0
  else receipts.foldl (fun total r => total + contrib prods r) 0

/-! ## Month filter (src/app.py:424-426) and the period profit
(src/app.py:1399-1408, 1438, 1468-1472) -/

/-- src/app.py:424-426 applied to the products frame on column `data_add`
(src/app.py:1408): keep rows whose date string starts with the month
(`.str.startswith(month)`, expressed on the character lists). -/
def apply_month_filterP (month : String) (ps : List Product) : List Product :=
  if month = "" then ps else ps.filter (fun p => month.data.isPrefixOf p.data_add.data)

/-- src/app.py:424-426 applied to the receipts frame on column `data`
(src/app.py:1438). -/
def apply_month_filterR (month : String) (rs : List Receipt) : List Receipt :=
  if month = "" then rs else rs.filter (fun r => month.data.isPrefixOf r.data.data)

/-- src/app.py:1468-1469: `lucro_periodo = _sum_profit(dr_mes, dfv)` where
`dr_mes` is the month-filtered receipts frame (src/app.py:1438) and `dfv` is
the month-filtered products frame `dfp` (src/app.py:1408, 1412). -/
def lucro_periodo (g_mes : String) (dr_all : List Receipt) (dfp_all : List Product) : ℚ :=
  _sum_profit (apply_month_filterR g_mes dr_all) (apply_month_filterP g_mes dfp_all)

/-- src/app.py:1472: `lucro_total = _sum_profit(dr_all, dfp_all)` — the
all-months total uses the unfiltered frames. -/
def lucro_total (dr_all : List Receipt) (dfp_all : List Product) : ℚ :=
  _sum_profit dr_all dfp_all

/-! ## Cash-Flow Aggregator (src/app.py:1063-1096)

Three record streams `gastos`, `investimentos`, `amazon_receitas`, each row
carrying a date and currency amounts. -/

/-- A row of `gastos`/`investimentos` as selected at src/app.py:1066-1067:
`date(data) as data, valor_brl, valor_usd`. -/
structure CashRec where
  data : String
  valor_brl : ℚ
  valor_usd : ℚ
deriving Repr, DecidableEq

/-- A row of `amazon_receitas` as selected at src/app.py:1068: only
`valor_usd` is loaded. -/
structure AmzReceita where
  data : String
  valor_usd : ℚ
deriving Repr, DecidableEq

/-- src/app.py:1069: `df_r["valor_brl"] = 0.0` — the receipts frame enters
the aggregation with its BRL column fixed to 0. -/
def df_r_of (rs : List AmzReceita) : List CashRec :=
  rs.map (fun x => ⟨x.data, 0, x.valor_usd⟩)

/-- src/app.py:1076: `pd.to_datetime(t["data"]).dt.to_period("M")` truncates
an ISO `YYYY-MM-DD` date string to its year-month key `YYYY-MM` (the first
seven characters). -/
def monthKey (d : String) : String := ⟨d.data.take 7⟩

/-- The `tipo` labels attached at src/app.py:1080-1082:
`"Despesas (Gastos)"`, `"Despesas (Invest.)"`, `"Receitas (Amazon)"`. -/
inductive Tipo where
  | gastos
  | invest
  | receitas
deriving Repr, DecidableEq

/-- One row of a per-stream monthly frame produced by `monthly`
(src/app.py:1074-1078): the month key, the stream label, and the two
summed currency columns. -/
structure MonthlyRow where
  mes : String
  tipo : Tipo
  brl : ℚ
  usd : ℚ
deriving Repr, DecidableEq

/-- The grouped sum of one currency column over one month:
`t.groupby("mes")[["valor_brl","valor_usd"]].sum()` restricted to key `m`. -/
def monthSum (f : CashRec → ℚ) (recs : List CashRec) (m : String) : ℚ :=
  ((recs.filter (fun r => monthKey r.data == m)).map f).sum

/-- The distinct month keys of a stream — the group index of the `groupby`
at src/app.py:1077 (pandas sorts the index; the claims here only use
membership, for which first-occurrence order is equivalent). -/
def monthsOf (recs : List CashRec) : List String :=
  (recs.map (fun r => monthKey r.data)).dedup

/-- The row of the monthly frame for one month key. -/
def monthlyRow (recs : List CashRec) (label : Tipo) (m : String) : MonthlyRow :=
  ⟨m, label, monthSum CashRec.valor_brl recs m, monthSum CashRec.valor_usd recs m⟩

/-- src/app.py:1074-1078: `monthly(df, label)` — one row per distinct month
of the stream, with both currency sums and the stream label (an empty stream
yields the empty frame). -/
def monthly (recs : List CashRec) (label : Tipo) : List MonthlyRow :=
  (monthsOf recs).map (monthlyRow recs label)

/-- src/app.py:1084-1085: the concatenation of the three per-stream monthly
frames (`all_brl`/`all_usd` share this row set; they differ only in which
currency column the pivot extracts). -/
def all_rows (g i r : List CashRec) : List MonthlyRow :=
  monthly g Tipo.gastos ++ monthly i Tipo.invest ++ monthly r Tipo.receitas

/-- One cell of `pivot_table(index="mes", columns="tipo", values=...,
aggfunc="sum", fill_value=0)` (src/app.py:1090-1091): the sum of the chosen
currency column over the rows with this month and label; a (mes, tipo)
combination absent from the frame yields the fill value 0.  The column
back-fill loop at src/app.py:1092-1094 is subsumed: a label with no rows
sums to 0. -/
def pivotCell (rows : List MonthlyRow) (m : String) (t : Tipo) (f : MonthlyRow → ℚ) : ℚ :=
  ((rows.filter (fun x => x.mes == m && x.tipo == t)).map f).sum

/-- The index of the pivot table: every month key occurring in the frame. -/
def pivotMonths (rows : List MonthlyRow) : List String :=
  (rows.map MonthlyRow.mes).dedup

/-- One output row of the monthly cash-flow table for one currency:
the three pivot cells plus `Resultado = Receitas (Amazon) − (Despesas
(Gastos) + Despesas (Invest.))` (src/app.py:1095-1096). -/
structure CashRow where
  mes : String
  receitas : ℚ
  gastos : ℚ
  invest : ℚ
  resultado : ℚ
deriving Repr, DecidableEq

def pivotRow (rows : List MonthlyRow) (f : MonthlyRow → ℚ) (m : String) : CashRow :=
  { mes := m
    receitas := pivotCell rows m Tipo.receitas f
    gastos := pivotCell rows m Tipo.gastos f
    invest := pivotCell rows m Tipo.invest f
    resultado := pivotCell rows m Tipo.receitas f -
      (pivotCell rows m Tipo.gastos f + pivotCell rows m Tipo.invest f) }

def pivotTable (rows : List MonthlyRow) (f : MonthlyRow → ℚ) : List CashRow :=
  (pivotMonths rows).map (pivotRow rows f)

/-- src/app.py:1090, 1092-1096: the BRL monthly table `p_brl` with its
`Resultado` column, built from the gastos and investimentos streams and the
amazon_receitas stream (whose BRL column was zeroed at src/app.py:1069). -/
def p_brl (g i : List CashRec) (rs : List AmzReceita) : List CashRow :=
  pivotTable (all_rows g i (df_r_of rs)) MonthlyRow.brl

/-- src/app.py:1091-1096: the USD monthly table `p_usd`. -/
def p_usd (g i : List CashRec) (rs : List AmzReceita) : List CashRow :=
  pivotTable (all_rows g i (df_r_of rs)) MonthlyRow.usd

/-! ## Helper lemmas -/

lemma match_nil (r : Receipt) : _match_prod_for_receipt [] r = none := by
  unfold _match_prod_for_receipt stepId stepSku stepUpc stepAsin stepName stepKey lookupById lookupByKey
  cases r.produto_id <;> simp

lemma contrib_nil (r : Receipt) : contrib [] r = 0 := by
  simp [contrib, match_nil]

lemma foldl_add_contrib (ps : List Product) (rs : List Receipt) (a : ℚ) :
    rs.foldl (fun t r => t + contrib ps r) a = a + (rs.map (contrib ps)).sum := by
  induction rs generalizing a with
  | nil => simp
  | cons r rs ih => simp [ih, add_assoc]

/-- The running total of `_sum_profit` is the sum of the per-receipt
contributions; the empty-frame guard agrees with the empty sum. -/
lemma sum_profit_eq (rs : List Receipt) (ps : List Product) :
    _sum_profit rs ps = (rs.map (contrib ps)).sum := by
  unfold _sum_profit
  by_cases h1 : rs = []
  · simp [h1]
  by_cases h2 : ps = []
  · subst h2
    simp only [h1, or_true, if_true]
    rw [List.sum_eq_zero]
    intro x hx
    rcases List.mem_map.mp hx with ⟨r, _, rfl⟩
    exact contrib_nil r
  · simp [h1, h2, foldl_add_contrib]

lemma filter_dropWhile {α : Type} {p q : α → Bool} (h : ∀ a, q a = true → p a = false)
    (l : List α) : (l.dropWhile q).filter p = l.filter p := by
  induction l with
  | nil => rfl
  | cons a l ih =>
    rw [List.dropWhile_cons]
    by_cases hq : q a = true
    · rw [if_pos hq, ih, List.filter_cons_of_neg]
      simp [h a hq]
    · rw [if_neg hq]

lemma ws_strip_toLower (c : Char) (h : c.isWhitespace = true) :
    (!(isStripChar c.toLower)) = false := by
  simp only [Char.isWhitespace] at h
  rcases Bool.or_eq_true_iff.mp h with h' | h''
  · rcases Bool.or_eq_true_iff.mp h' with h1 | h2
    · rcases Bool.or_eq_true_iff.mp h1 with ha | hb
      · have : c = ' ' := by simpa using ha
        subst this; decide
      · have : c = '\t' := by simpa using hb
        subst this; decide
    · have : c = '\r' := by simpa using h2
      subst this; decide
  · have : c = '\n' := by simpa using h''
    subst this; decide

/-- The canonical key of an identifier as the spec describes it: lower-case
the characters and drop every whitespace/hyphen/dot/underscore character.
Two identifiers "differ only in case and in such characters" exactly when
their canonical keys agree. -/
def normKey (s : String) : List Char :=
  (s.data.map Char.toLower).filter (fun c => !(isStripChar c))

/-- `_norm` computes exactly the canonical key: the initial `strip()` is
subsumed by the removal of all whitespace. -/
lemma norm_eq_normKey (s : String) : _norm s = ⟨normKey s⟩ := by
  unfold _norm normKey pyStrip
  have hws : ∀ a : Char, a.isWhitespace = true →
      ((fun c => !(isStripChar c)) ∘ Char.toLower) a = false := by
    intro a ha
    simpa using ws_strip_toLower a ha
  congr 1
  rw [List.filter_map, List.filter_map]
  congr 1
  rw [List.filter_reverse, filter_dropWhile hws, List.filter_reverse,
      List.reverse_reverse, filter_dropWhile hws]

lemma nodup_filter_beq (l : List String) (h : l.Nodup) (m : String) :
    l.filter (fun x => x == m) = if m ∈ l then [m] else [] := by
  induction l with
  | nil => simp
  | cons a l ih =>
    rcases List.nodup_cons.mp h with ⟨ha, hl⟩
    by_cases hm : a = m
    · subst hm
      rw [List.filter_cons_of_pos (by simp)]
      have : l.filter (fun x => x == a) = [] := by
        rw [ih hl, if_neg ha]
      simp [this]
    · rw [List.filter_cons_of_neg (by simp [hm])]
      rw [ih hl]
      have hma : ¬m = a := fun hh => hm hh.symm
      by_cases hml : m ∈ l
      · simp [hml, List.mem_cons]
      · simp [hml, List.mem_cons, hma]

lemma pivotCell_append (r₁ r₂ : List MonthlyRow) (m : String) (t : Tipo) (f : MonthlyRow → ℚ) :
    pivotCell (r₁ ++ r₂) m t f = pivotCell r₁ m t f + pivotCell r₂ m t f := by
  unfold pivotCell
  rw [List.filter_append, List.map_append, List.sum_append]

/-- A monthly frame carries only its own stream label, so a pivot cell for a
different label sums no rows. -/
lemma pivotCell_monthly_ne (recs : List CashRec) (t t' : Tipo) (hne : t ≠ t') (m : String)
    (f : MonthlyRow → ℚ) : pivotCell (monthly recs t) m t' f = 0 := by
  unfold pivotCell
  have hnil : (monthly recs t).filter (fun x => x.mes == m && x.tipo == t') = [] := by
    rw [List.filter_eq_nil_iff]
    intro x hx
    rcases List.mem_map.mp hx with ⟨m', _, rfl⟩
    simp [monthlyRow, hne]
  rw [hnil]; simp

lemma monthSum_eq_zero (v : CashRec → ℚ) (recs : List CashRec) (m : String)
    (h : ∀ x ∈ recs, monthKey x.data ≠ m) : monthSum v recs m = 0 := by
  unfold monthSum
  have : recs.filter (fun r => monthKey r.data == m) = [] := by
    rw [List.filter_eq_nil_iff]
    intro r hr
    simp [h r hr]
  rw [this]; simp

/-- A pivot cell over one monthly frame with the matching label is the
stream's month sum — including the `fill_value=0` case where the month is
absent from the stream. -/
lemma pivotCell_monthly_eq (recs : List CashRec) (t : Tipo) (m : String)
    (f : MonthlyRow → ℚ) (v : CashRec → ℚ)
    (hfv : ∀ m', f (monthlyRow recs t m') = monthSum v recs m') :
    pivotCell (monthly recs t) m t f = monthSum v recs m := by
  unfold pivotCell monthly
  rw [List.filter_map]
  have hpred : ((fun x => x.mes == m && x.tipo == t) ∘ (monthlyRow recs t)) =
      (fun m' => m' == m) := by
    funext m'; simp [monthlyRow]
  have hnd : (monthsOf recs).Nodup := by
    unfold monthsOf; exact List.nodup_dedup _
  rw [hpred, nodup_filter_beq _ hnd m]
  by_cases hm : m ∈ monthsOf recs
  · simp [hm, hfv]
  · rw [if_neg hm]
    have hrec : monthSum v recs m = 0 := by
      apply monthSum_eq_zero
      intro x hx hkey
      exact hm (List.mem_dedup.mpr (List.mem_map.mpr ⟨x, hx, hkey⟩))
    simp [hrec]

/-- The three pivot cells of the joined frame are exactly the three streams'
month sums. -/
lemma pivotCell_all (g i r : List CashRec) (m : String) (f : MonthlyRow → ℚ) (v : CashRec → ℚ)
    (hfv : ∀ recs t m', f (monthlyRow recs t m') = monthSum v recs m') :
    pivotCell (all_rows g i r) m Tipo.gastos f = monthSum v g m ∧
    pivotCell (all_rows g i r) m Tipo.invest f = monthSum v i m ∧
    pivotCell (all_rows g i r) m Tipo.receitas f = monthSum v r m := by
  unfold all_rows
  rw [pivotCell_append, pivotCell_append, pivotCell_append, pivotCell_append,
      pivotCell_append, pivotCell_append]
  refine ⟨?_, ?_, ?_⟩
  · rw [pivotCell_monthly_eq _ _ _ _ _ (hfv g Tipo.gastos),
        pivotCell_monthly_ne _ _ _ (by decide), pivotCell_monthly_ne _ _ _ (by decide)]
    ring
  · rw [pivotCell_monthly_eq _ _ _ _ _ (hfv i Tipo.invest),
        pivotCell_monthly_ne _ _ _ (by decide), pivotCell_monthly_ne _ _ _ (by decide)]
    ring
  · rw [pivotCell_monthly_eq _ _ _ _ _ (hfv r Tipo.receitas),
        pivotCell_monthly_ne _ _ _ (by decide), pivotCell_monthly_ne _ _ _ (by decide)]
    ring

/-- The index of the joined pivot table is the set of months present in at
least one stream. -/
lemma mem_pivotMonths_all (g i r : List CashRec) (m : String) :
    m ∈ pivotMonths (all_rows g i r) ↔
      (∃ x ∈ g, monthKey x.data = m) ∨ (∃ x ∈ i, monthKey x.data = m) ∨
      (∃ x ∈ r, monthKey x.data = m) := by
  unfold pivotMonths all_rows monthly monthsOf monthlyRow
  simp [List.mem_dedup, List.mem_map]

/-! ## Claim theorems -/

/-- The ordered strategy list of §4.2 of the spec: the cascade is the first
hit among (1) id, (2) sku, (3) upc, (4) asin, (5) name.  This definition
follows the spec's chain-of-responsibility wording and is compared with the
source-translated `_match_prod_for_receipt` in the C1 theorem. -/
def cascadeListSpec (ps : List Product) (r : Receipt) : Option Product :=
  [stepId ps r, stepSku ps r, stepUpc ps r, stepAsin ps r, stepName ps r].findSome? id

/-- Claim C1: for EVERY receipt and product set the Product Matcher tries
the five lookups in strict order, stopping at the first hit — it coincides
with the ordered strategy list of §4.2; and in particular, whenever a
receipt's `product_id` resolves to a product `p` while its sku would
(normalized) match a different product `p'`, the matcher returns the
`product_id` match `p`. -/
theorem c1_matcher_precedence (ps : List Product) (r : Receipt) :
    _match_prod_for_receipt ps r = cascadeListSpec ps r ∧
    (∀ (pid : Int) (p p' : Product), r.produto_id = some pid →
      lookupById ps pid = some p → stepSku ps r = some p' → p' ≠ p →
      _match_prod_for_receipt ps r = some p) := by
  constructor
  · unfold _match_prod_for_receipt cascadeListSpec
    rcases h1 : stepId ps r with _ | p1 <;> rcases h2 : stepSku ps r with _ | p2 <;>
      rcases h3 : stepUpc ps r with _ | p3 <;> rcases h4 : stepAsin ps r with _ | p4 <;>
      rcases h5 : stepName ps r with _ | p5 <;> simp [List.findSome?]
  · intro pid p p' hpid hid _ _
    have hstep : stepId ps r = some p := by
      simp [stepId, hpid, hid]
    simp [_match_prod_for_receipt, hstep]

/-- A product used by the C1 witness: resolvable by id 1, sku `AAA-1`. -/
def pA : Product :=
  { id := 1, data_add := "2024-01-03", nome := "Alpha", sku := "AAA-1", upc := "", asin := "",
    custo_base := 1, freight := 0, tax := 0, quantidade := 1, prep := 0,
    sold_for := 5, amazon_fees := 0 }

/-- A second product whose sku `BBB-2` matches the witness receipt's sku. -/
def pB : Product :=
  { id := 2, data_add := "2024-01-04", nome := "Beta", sku := "BBB-2", upc := "", asin := "",
    custo_base := 1, freight := 0, tax := 0, quantidade := 1, prep := 0,
    sold_for := 9, amazon_fees := 0 }

/-- A receipt whose `produto_id` resolves to `pA` while its sku would match
`pB`. -/
def rW : Receipt :=
  { id := 11, data := "2024-02-01", produto_id := some 1, quantidade := 2, valor_usd := 10,
    sku := some "BBB-2", upc := none, asin := none, produto := none }

/-- Witness for C1 at a concrete conflicted receipt: the cascade equality
holds there and the id match wins over the sku match. -/
theorem c1_witness :
    _match_prod_for_receipt [pA, pB] rW = cascadeListSpec [pA, pB] rW ∧
    _match_prod_for_receipt [pA, pB] rW = some pA :=
  ⟨(c1_matcher_precedence [pA, pB] rW).1,
   (c1_matcher_precedence [pA, pB] rW).2 1 pA pB rfl rfl rfl
     (fun hh => absurd (congrArg Product.id hh) (by decide))⟩

/-- Claim C3: the Cost Allocation Calculator's degenerate-divisor guards —
zero lot quantity leaves the effective unit cost at the base cost, zero
effective cost yields ROI 0, zero sale price yields margin 0; each case is a
guarded zero, not a division. -/
theorem c3_degenerate_divisors (p : Product) :
    (p.quantidade = 0 → price_to_buy_eff p = p.custo_base) ∧
    (price_to_buy_eff p = 0 → gross_roi p = 0) ∧
    (p.sold_for = 0 → margin_pct p = 0) := by
  refine ⟨fun h => ?_, fun h => ?_, fun h => ?_⟩
  · simp [price_to_buy_eff, h]
  · simp [gross_roi, h]
  · simp [margin_pct, h]

/-- A fully degenerate product: zero lot quantity with nonzero freight/tax,
zero base cost, zero sale price. -/
def pC3w : Product :=
  { id := 4, data_add := "2024-03-01", nome := "Degenerate", sku := "", upc := "", asin := "",
    custo_base := 0, freight := 3, tax := 4, quantidade := 0, prep := 1,
    sold_for := 0, amazon_fees := 1 }

/-- Witness for C3 at the degenerate product. -/
theorem c3_witness :
    price_to_buy_eff pC3w = pC3w.custo_base ∧ gross_roi pC3w = 0 ∧ margin_pct pC3w = 0 :=
  ⟨(c3_degenerate_divisors pC3w).1 rfl,
   (c3_degenerate_divisors pC3w).2.1 (by norm_num [price_to_buy_eff, pC3w]),
   (c3_degenerate_divisors pC3w).2.2 rfl⟩

/-- The product of the worked scenario of §8 of the spec. -/
def prodC5 : Product :=
  { id := 1, data_add := "2024-01-05", nome := "Gadget", sku := "SKU-1", upc := "", asin := "",
    custo_base := 10, freight := 5, tax := 5, quantidade := 10, prep := 2,
    sold_for := 30, amazon_fees := 3 }

/-- The receipt of the worked scenario: 3 units sold of `prodC5`. -/
def rC5 : Receipt :=
  { id := 7, data := "2024-01-20", produto_id := some 1, quantidade := 3, valor_usd := 90,
    sku := none, upc := none, asin := none, produto := none }

/-- Claim C5: the worked scenario — effective unit cost 11, gross profit per
unit 14, ROI 14/11, margin 14/30, and a matched receipt of 3 units
contributes 14 × 3 = 42 to realized profit. -/
theorem c5_worked_scenario :
    price_to_buy_eff prodC5 = 11 ∧ gross_profit_unit prodC5 = 14 ∧
    gross_roi prodC5 = 14 / 11 ∧ margin_pct prodC5 = 14 / 30 ∧
    _sum_profit [rC5] [prodC5] = 42 := by
  refine ⟨?_, ?_, ?_, ?_, ?_⟩
  · norm_num [price_to_buy_eff, prodC5]
  · norm_num [gross_profit_unit, price_to_buy_eff, prodC5]
  · norm_num [gross_roi, gross_profit_unit, price_to_buy_eff, prodC5]
  · norm_num [margin_pct, gross_profit_unit, price_to_buy_eff, prodC5]
  · have h : _match_prod_for_receipt [prodC5] rC5 = some prodC5 := rfl
    simp [_sum_profit, contrib, h]
    norm_num [gross_profit_unit, price_to_buy_eff, prodC5, rC5]

/-- Claim C6: a receipt for which no cascade step succeeds — in particular
one whose identifiers are blank, since an empty normalized key is never
looked up — is left unmatched (`none`, no error) and is silently skipped by
the Profit Aggregator, contributing exactly 0 to the total. -/
theorem c6_unmatched_silent_skip (ps : List Product) (rs₁ rs₂ : List Receipt) (r : Receipt)
    (h1 : stepId ps r = none)
    (h2 : normOpt r.sku = "" ∨ stepSku ps r = none)
    (h3 : normOpt r.upc = "" ∨ stepUpc ps r = none)
    (h4 : normOpt r.asin = "" ∨ stepAsin ps r = none)
    (h5 : normOpt r.produto = "" ∨ stepName ps r = none) :
    _match_prod_for_receipt ps r = none ∧
    _sum_profit (rs₁ ++ r :: rs₂) ps = _sum_profit (rs₁ ++ rs₂) ps := by
  have h2' : stepSku ps r = none := h2.elim (fun h => by simp [stepSku, stepKey, h]) id
  have h3' : stepUpc ps r = none := h3.elim (fun h => by simp [stepUpc, stepKey, h]) id
  have h4' : stepAsin ps r = none := h4.elim (fun h => by simp [stepAsin, stepKey, h]) id
  have h5' : stepName ps r = none := h5.elim (fun h => by simp [stepName, stepKey, h]) id
  have hmatch : _match_prod_for_receipt ps r = none := by
    simp [_match_prod_for_receipt, h1, h2', h3', h4', h5']
  refine ⟨hmatch, ?_⟩
  rw [sum_profit_eq, sum_profit_eq]
  have hc : contrib ps r = 0 := by simp [contrib, hmatch]
  simp [hc]

/-- A receipt whose identifiers are all blank after normalization. -/
def rBlank : Receipt :=
  { id := 12, data := "2024-02-02", produto_id := none, quantidade := 1, valor_usd := 3,
    sku := some " -._ ", upc := none, asin := none, produto := some "" }

/-- Witness for C6 at the all-blank receipt. -/
theorem c6_witness :
    _match_prod_for_receipt [pA] rBlank = none ∧
    _sum_profit [rBlank] [pA] = _sum_profit [] [pA] :=
  c6_unmatched_silent_skip [pA] [] [] rBlank rfl (Or.inl rfl) (Or.inl rfl) (Or.inl rfl)
    (Or.inl rfl)

/-- Claim C7: the Profit Aggregator is order-independent — permuting the
receipt collection leaves the realized-profit total unchanged (and, being a
pure function of its inputs, re-running it with identical inputs trivially
yields the identical total). -/
theorem c7_order_invariance (ps : List Product) (rs rs' : List Receipt) (h : rs.Perm rs') :
    _sum_profit rs ps = _sum_profit rs' ps := by
  rw [sum_profit_eq, sum_profit_eq]
  exact (h.map (contrib ps)).sum_eq

/-- Witness for C7 at a concrete two-receipt swap. -/
theorem c7_witness :
    _sum_profit [rW, rBlank] [pA, pB] = _sum_profit [rBlank, rW] [pA, pB] :=
  c7_order_invariance [pA, pB] [rW, rBlank] [rBlank, rW] (List.Perm.swap rBlank rW [])

/-- Claim C8: the Profit Aggregator returns 0 on an empty receipt collection
and returns 0 (rather than failing) on an empty product set, whatever the
receipts. -/
theorem c8_empty_inputs (rs : List Receipt) (ps : List Product) :
    _sum_profit [] ps = 0 ∧ _sum_profit rs [] = 0 := by
  constructor <;> simp [_sum_profit]

/-- A product with sku `BTL-500`, for the C4 matcher instance. -/
def pBTL : Product :=
  { id := 21, data_add := "2024-02-01", nome := "Bottle", sku := "BTL-500", upc := "", asin := "",
    custo_base := 2, freight := 0, tax := 0, quantidade := 1, prep := 0,
    sold_for := 8, amazon_fees := 1 }

/-- A receipt with no product link whose sku snapshot is ` btl_500 `. -/
def rBTL : Receipt :=
  { id := 22, data := "2024-02-10", produto_id := none, quantidade := 1, valor_usd := 8,
    sku := some " btl_500 ", upc := none, asin := none, produto := none }

/-- Claim C4: identifier normalization trims surrounding whitespace,
lower-cases, and removes internal whitespace/hyphens/dots/underscores, so
any two strings that differ only in case and in such characters (equal
canonical keys) normalize identically; `"ABC-123"`, `" abc123 "` and
`"Abc_123"` all normalize to one key, and a product with sku `"BTL-500"`
matches a receipt with sku `" btl_500 "`. -/
theorem c4_normalization :
    (∀ s t : String, normKey s = normKey t → _norm s = _norm t) ∧
    _norm "ABC-123" = _norm " abc123 " ∧ _norm "Abc_123" = _norm " abc123 " ∧
    _norm "BTL-500" = _norm " btl_500 " ∧
    _match_prod_for_receipt [pBTL] rBTL = some pBTL := by
  refine ⟨fun s t h => ?_, by decide, by decide, by decide, rfl⟩
  rw [norm_eq_normKey, norm_eq_normKey, h]

/-- Witness for C4's universally quantified part at a concrete string pair. -/
theorem c4_witness : _norm "A-B c" = _norm "ab_C" :=
  c4_normalization.1 "A-B c" "ab_C" (by decide)

/-- A product created outside the selected period, referenced by `rC2`. -/
def pC2out : Product :=
  { id := 99, data_add := "2023-12-01", nome := "OldItem", sku := "OLD-1", upc := "", asin := "",
    custo_base := 0, freight := 0, tax := 0, quantidade := 0, prep := 0,
    sold_for := 10, amazon_fees := 0 }

/-- An unrelated product created inside the selected period (it keeps the
period's product frame non-empty, as in the page's display branch). -/
def pC2in : Product :=
  { id := 1, data_add := "2024-01-02", nome := "NewItem", sku := "NEW-1", upc := "", asin := "",
    custo_base := 1, freight := 0, tax := 0, quantidade := 1, prep := 0,
    sold_for := 5, amazon_fees := 0 }

/-- A receipt dated inside the period that references `pC2out` by id. -/
def rC2 : Receipt :=
  { id := 3, data := "2024-01-15", produto_id := some 99, quantidade := 1, valor_usd := 10,
    sku := none, upc := none, asin := none, produto := none }

/-- Counterexample to claim C2: the period profit `lucro_periodo` resolves
the period's receipts against the PERIOD-FILTERED product frame
(src/app.py:1408, 1469 — `# 1) Lucro do período selecionado (usa produtos
filtrados)`), not the full product set.  A January receipt referencing a
product created in December yields 0, while the same receipts resolved
against the full product set yield 10. -/
theorem c2_counterexample :
    lucro_periodo "2024-01" [rC2] [pC2out, pC2in] = 0 ∧
    _sum_profit (apply_month_filterR "2024-01" [rC2]) [pC2out, pC2in] = 10 := by
  constructor
  · have hfp : apply_month_filterP "2024-01" [pC2out, pC2in] = [pC2in] := rfl
    have hfr : apply_month_filterR "2024-01" [rC2] = [rC2] := rfl
    have hmatch : _match_prod_for_receipt [pC2in] rC2 = none := rfl
    rw [lucro_periodo, hfp, hfr, sum_profit_eq]
    simp [contrib, hmatch]
  · have hfr : apply_month_filterR "2024-01" [rC2] = [rC2] := rfl
    have hmatch : _match_prod_for_receipt [pC2out, pC2in] rC2 = some pC2out := rfl
    rw [hfr, sum_profit_eq]
    simp [contrib, hmatch]
    norm_num [gross_profit_unit, price_to_buy_eff, pC2out, rC2]

/-- Claim C2 as amended: the period profit filters BOTH frames by the
period, so products whose creation date lies outside the period never
influence it — appending them to the product frame leaves `lucro_periodo`
unchanged (the full product set is used only by `lucro_total`). -/
theorem c2_amended (g_mes : String) (rs : List Receipt) (ps extra : List Product)
    (hmes : g_mes ≠ "")
    (hex : ∀ p ∈ extra, ¬(g_mes.data.isPrefixOf p.data_add.data = true)) :
    lucro_periodo g_mes rs (ps ++ extra) = lucro_periodo g_mes rs ps := by
  unfold lucro_periodo apply_month_filterP
  rw [if_neg hmes, if_neg hmes, List.filter_append]
  have hnil : extra.filter (fun p => g_mes.data.isPrefixOf p.data_add.data) = [] :=
    List.filter_eq_nil_iff.mpr hex
  rw [hnil, List.append_nil]

/-- Witness for the amended C2 at the counterexample's data. -/
theorem c2_witness :
    lucro_periodo "2024-01" [rC2] ([pC2in] ++ [pC2out]) =
      lucro_periodo "2024-01" [rC2] [pC2in] :=
  c2_amended "2024-01" [rC2] [pC2in] [pC2out] (by decide)
    (by intro p hp; rw [List.mem_singleton] at hp; subst hp; decide)

/-- Claim C9: every month present in at least one of the three streams
appears as a row of both monthly tables; on that row each stream column is
that stream's month sum (0 when the stream has no record in the month), and
`Resultado = Receitas − (Gastos + Investimentos)` holds per currency, the
BRL row built only from BRL sums and the USD row only from USD sums. -/
theorem c9_monthly_join (g i : List CashRec) (rs : List AmzReceita) (m : String)
    (hm : (∃ x ∈ g, monthKey x.data = m) ∨ (∃ x ∈ i, monthKey x.data = m) ∨
          (∃ x ∈ rs, monthKey x.data = m)) :
    (∃ row ∈ p_brl g i rs, row.mes = m) ∧ (∃ row ∈ p_usd g i rs, row.mes = m) ∧
    (∀ row ∈ p_brl g i rs, row.mes = m →
        row.gastos = monthSum CashRec.valor_brl g m ∧
        row.invest = monthSum CashRec.valor_brl i m ∧
        row.receitas = monthSum CashRec.valor_brl (df_r_of rs) m ∧
        ((∀ x ∈ i, monthKey x.data ≠ m) → row.invest = 0) ∧
        ((∀ x ∈ rs, monthKey x.data ≠ m) → row.receitas = 0) ∧
        row.resultado = row.receitas - (row.gastos + row.invest)) ∧
    (∀ row ∈ p_usd g i rs, row.mes = m →
        row.gastos = monthSum CashRec.valor_usd g m ∧
        row.invest = monthSum CashRec.valor_usd i m ∧
        row.receitas = monthSum CashRec.valor_usd (df_r_of rs) m ∧
        ((∀ x ∈ i, monthKey x.data ≠ m) → row.invest = 0) ∧
        ((∀ x ∈ rs, monthKey x.data ≠ m) → row.receitas = 0) ∧
        row.resultado = row.receitas - (row.gastos + row.invest)) := by
  have hmem : m ∈ pivotMonths (all_rows g i (df_r_of rs)) := by
    rw [mem_pivotMonths_all]
    rcases hm with h | h | h
    · exact Or.inl h
    · exact Or.inr (Or.inl h)
    · rcases h with ⟨x, hx, hkey⟩
      exact Or.inr (Or.inr ⟨⟨x.data, 0, x.valor_usd⟩, List.mem_map.mpr ⟨x, hx, rfl⟩, hkey⟩)
  have hdfr : ∀ (v : CashRec → ℚ), (∀ x ∈ rs, monthKey x.data ≠ m) →
      monthSum v (df_r_of rs) m = 0 := by
    intro v hno
    apply monthSum_eq_zero
    intro y hy
    rcases List.mem_map.mp hy with ⟨x, hx, rfl⟩
    exact hno x hx
  refine ⟨⟨pivotRow (all_rows g i (df_r_of rs)) MonthlyRow.brl m,
          List.mem_map.mpr ⟨m, hmem, rfl⟩, rfl⟩,
         ⟨pivotRow (all_rows g i (df_r_of rs)) MonthlyRow.usd m,
          List.mem_map.mpr ⟨m, hmem, rfl⟩, rfl⟩, ?_, ?_⟩
  · intro row hrow hmes
    rcases List.mem_map.mp hrow with ⟨m', _, rfl⟩
    have hm' : m' = m := hmes
    subst hm'
    obtain ⟨hgc, hic, hrc⟩ := pivotCell_all g i (df_r_of rs) m' MonthlyRow.brl
      CashRec.valor_brl (fun _ _ _ => rfl)
    refine ⟨hgc, hic, hrc, ?_, ?_, rfl⟩
    · intro hno
      show pivotCell _ m' Tipo.invest MonthlyRow.brl = 0
      rw [hic]
      exact monthSum_eq_zero _ _ _ hno
    · intro hno
      show pivotCell _ m' Tipo.receitas MonthlyRow.brl = 0
      rw [hrc]
      exact hdfr _ hno
  · intro row hrow hmes
    rcases List.mem_map.mp hrow with ⟨m', _, rfl⟩
    have hm' : m' = m := hmes
    subst hm'
    obtain ⟨hgc, hic, hrc⟩ := pivotCell_all g i (df_r_of rs) m' MonthlyRow.usd
      CashRec.valor_usd (fun _ _ _ => rfl)
    refine ⟨hgc, hic, hrc, ?_, ?_, rfl⟩
    · intro hno
      show pivotCell _ m' Tipo.invest MonthlyRow.usd = 0
      rw [hic]
      exact monthSum_eq_zero _ _ _ hno
    · intro hno
      show pivotCell _ m' Tipo.receitas MonthlyRow.usd = 0
      rw [hrc]
      exact hdfr _ hno

lemma monthSum_nonneg (v : CashRec → ℚ) (recs : List CashRec) (m : String)
    (h : ∀ x ∈ recs, 0 ≤ v x) : 0 ≤ monthSum v recs m := by
  apply List.sum_nonneg
  intro x hx
  rcases List.mem_map.mp hx with ⟨c, hc, rfl⟩
  exact h c (List.mem_filter.mp hc).1

/-- Every record of the zero-filled receipts frame has BRL amount 0, so its
BRL month sum vanishes. -/
lemma monthSum_df_r_brl (rs : List AmzReceita) (m : String) :
    monthSum CashRec.valor_brl (df_r_of rs) m = 0 := by
  unfold monthSum
  rw [List.sum_eq_zero]
  intro x hx
  rcases List.mem_map.mp hx with ⟨c, hc, rfl⟩
  rcases List.mem_filter.mp hc with ⟨hcm, _⟩
  rcases List.mem_map.mp hcm with ⟨a, _, rfl⟩
  rfl

/-- Claim C10: receipts enter the Cash-Flow Aggregator with BRL fixed to 0,
so every row of the BRL monthly table has `Receitas (Amazon)` exactly 0 and
`Resultado = −(Gastos + Investimentos)`; with the app's non-negative entry
amounts the BRL monthly result is never positive. -/
theorem c10_brl_result_nonpositive (g i : List CashRec) (rs : List AmzReceita) (row : CashRow)
    (hrow : row ∈ p_brl g i rs)
    (hg : ∀ x ∈ g, 0 ≤ x.valor_brl) (hi : ∀ x ∈ i, 0 ≤ x.valor_brl) :
    row.receitas = 0 ∧ row.resultado = -(row.gastos + row.invest) ∧ row.resultado ≤ 0 := by
  rcases List.mem_map.mp hrow with ⟨m, _, rfl⟩
  obtain ⟨hgc, hic, hrc⟩ := pivotCell_all g i (df_r_of rs) m MonthlyRow.brl
    CashRec.valor_brl (fun _ _ _ => rfl)
  have hrec : (pivotRow (all_rows g i (df_r_of rs)) MonthlyRow.brl m).receitas = 0 := by
    show pivotCell _ m Tipo.receitas MonthlyRow.brl = 0
    rw [hrc, monthSum_df_r_brl]
  have hgastos : (pivotRow (all_rows g i (df_r_of rs)) MonthlyRow.brl m).gastos =
      monthSum CashRec.valor_brl g m := hgc
  have hinvest : (pivotRow (all_rows g i (df_r_of rs)) MonthlyRow.brl m).invest =
      monthSum CashRec.valor_brl i m := hic
  have hres : (pivotRow (all_rows g i (df_r_of rs)) MonthlyRow.brl m).resultado =
      (pivotRow (all_rows g i (df_r_of rs)) MonthlyRow.brl m).receitas -
      ((pivotRow (all_rows g i (df_r_of rs)) MonthlyRow.brl m).gastos +
       (pivotRow (all_rows g i (df_r_of rs)) MonthlyRow.brl m).invest) := rfl
  have hg0 : 0 ≤ monthSum CashRec.valor_brl g m := monthSum_nonneg _ _ _ hg
  have hi0 : 0 ≤ monthSum CashRec.valor_brl i m := monthSum_nonneg _ _ _ hi
  refine ⟨hrec, ?_, ?_⟩
  · rw [hres, hrec]; ring
  · rw [hres, hrec, hgastos, hinvest]; linarith

/-- A one-record expense stream for the cash-flow witnesses. -/
def gW : List CashRec := [⟨"2024-01-15", 100, 20⟩]

/-- A one-record investment stream for the cash-flow witnesses. -/
def iW : List CashRec := [⟨"2024-01-03", 30, 5⟩]

/-- A one-record receipts stream for the cash-flow witnesses. -/
def rsW : List AmzReceita := [⟨"2024-01-10", 500⟩]

/-- Witness for C9 at concrete one-record streams and month 2024-01. -/
theorem c9_witness :
    (∃ row ∈ p_brl gW iW rsW, row.mes = "2024-01") ∧
    (∃ row ∈ p_usd gW iW rsW, row.mes = "2024-01") ∧
    (∀ row ∈ p_brl gW iW rsW, row.mes = "2024-01" →
        row.gastos = monthSum CashRec.valor_brl gW "2024-01" ∧
        row.invest = monthSum CashRec.valor_brl iW "2024-01" ∧
        row.receitas = monthSum CashRec.valor_brl (df_r_of rsW) "2024-01" ∧
        ((∀ x ∈ iW, monthKey x.data ≠ "2024-01") → row.invest = 0) ∧
        ((∀ x ∈ rsW, monthKey x.data ≠ "2024-01") → row.receitas = 0) ∧
        row.resultado = row.receitas - (row.gastos + row.invest)) ∧
    (∀ row ∈ p_usd gW iW rsW, row.mes = "2024-01" →
        row.gastos = monthSum CashRec.valor_usd gW "2024-01" ∧
        row.invest = monthSum CashRec.valor_usd iW "2024-01" ∧
        row.receitas = monthSum CashRec.valor_usd (df_r_of rsW) "2024-01" ∧
        ((∀ x ∈ iW, monthKey x.data ≠ "2024-01") → row.invest = 0) ∧
        ((∀ x ∈ rsW, monthKey x.data ≠ "2024-01") → row.receitas = 0) ∧
        row.resultado = row.receitas - (row.gastos + row.invest)) :=
  c9_monthly_join gW iW rsW "2024-01"
    (Or.inl ⟨⟨"2024-01-15", 100, 20⟩, List.mem_singleton.mpr rfl, rfl⟩)

/-- Witness for C10 at the same concrete streams. -/
theorem c10_witness :
    (pivotRow (all_rows gW iW (df_r_of rsW)) MonthlyRow.brl "2024-01").receitas = 0 ∧
    (pivotRow (all_rows gW iW (df_r_of rsW)) MonthlyRow.brl "2024-01").resultado =
      -((pivotRow (all_rows gW iW (df_r_of rsW)) MonthlyRow.brl "2024-01").gastos +
        (pivotRow (all_rows gW iW (df_r_of rsW)) MonthlyRow.brl "2024-01").invest) ∧
    (pivotRow (all_rows gW iW (df_r_of rsW)) MonthlyRow.brl "2024-01").resultado ≤ 0 :=
  c10_brl_result_nonpositive gW iW rsW _
    (List.mem_map.mpr ⟨"2024-01", by decide, rfl⟩)
    (by intro x hx; simp only [gW, List.mem_singleton] at hx; subst hx; norm_num)
    (by intro x hx; simp only [iW, List.mem_singleton] at hx; subst hx; norm_num)

end Qota
